import Mathlib

set_option maxRecDepth 100000

/-!
Verification of the service-cascade and dynamic-pricing engine of the
luxury-ecosystem-core repository.

The definitions below are a shallow embedding of the JavaScript source:
* `CascadeEngine` (src/unnamed/part_000): rule loading, condition
  evaluation, probabilistic cascade triggering with deferred order
  creation, duplicate suppression, and the cascade's own discount-based
  pricing (`calculateDynamicPricing`).
* `RevenueOptimizer` (src/src/revenue/optimizer.js): the multiplicative
  dynamic-pricing computation `calculateOptimalPrice` with its factor
  tables, clamping and rounding.
* The service-completion path (src/src/api/services.js,
  `handleServiceCompletion`), which invokes the cascade engine.

JavaScript numbers are modelled as exact rationals (`ℚ`); `undefined`
fields are modelled as `Option`; JSON condition values as `JsVal`.
Asynchronous store access is modelled as explicit state passing over a
`Store` record, and the 5-second `setTimeout` deferral of triggered-order
creation is modelled by returning the list of deferred tasks to be run
after the evaluation loop (`runDeferred`).
-/

/-- A JSON value as it appears in a rule's `conditions` object
(thresholds are numbers, flags are booleans). -/
inductive JsVal where
  | num (q : ℚ)
  | bool (b : Bool)
  | str (s : String)
  | null
deriving DecidableEq

/-- JavaScript truthiness of a `JsVal` (`0`, `false`, `""` and `null`
are falsy). -/
def JsVal.truthy : JsVal → Bool
  | .num q => !(q == 0)
  | .bool b => b
  | .str s => !(s == "")
  | .null => false

/-- JavaScript numeric coercion of a `JsVal`; `none` stands for `NaN`
(non-numeric strings; rule thresholds in this repository are plain
numbers, so string-to-number parsing is not modelled). -/
def JsVal.toNumber : JsVal → Option ℚ
  | .num q => some q
  | .bool b => some (if b then 1 else 0)
  | .str _ => none
  | .null => some 0

/-- JavaScript `a < b` where either side may be `undefined`/`NaN`
(`none`): any comparison against `undefined` or `NaN` is `false`. -/
def jsLtOpt (a b : Option ℚ) : Bool :=
  match a, b with
  | some x, some y => decide (x < y)
  | _, _ => false

/-- JavaScript `a > b` with `undefined`/`NaN` on either side. -/
def jsGtOpt (a b : Option ℚ) : Bool :=
  match a, b with
  | some x, some y => decide (y < x)
  | _, _ => false

/-- JavaScript `a < c` for a possibly-`undefined` field against a
numeric literal. -/
def jsLtQ (a : Option ℚ) (c : ℚ) : Bool := jsLtOpt a (some c)

/-- JavaScript `a > c` for a possibly-`undefined` field against a
numeric literal. -/
def jsGtQ (a : Option ℚ) (c : ℚ) : Bool := jsGtOpt a (some c)

/-- `Math.round(q * 100) / 100` — rounding to the smallest currency
unit; JavaScript `Math.round` is floor of `x + 0.5`. -/
def round2 (q : ℚ) : ℚ := ((⌊q * 100 + 1/2⌋ : ℤ) : ℚ) / 100

/-- A vehicle row as read by the cascade engine (only the `condition`
field is consulted). -/
structure Vehicle where
  condition : String
deriving DecidableEq

/-- The aggregated client profile built by
`CascadeEngine.getClientProfile` (part_000 lines 275-346). `none` models
an absent (`undefined`) field; `totalSpent` and `totalOrders` are always
numbers (`parseFloat(...) || 0`, `parseInt(...) || 0`). -/
structure Client where
  id : ℕ
  credit_score : Option ℚ
  vehicle_value : Option ℚ
  annual_income : Option ℚ
  journey_stage : Option String
  client_type : Option String
  business_name : Option String
  vehicles : List Vehicle
  totalSpent : ℚ
  totalOrders : ℕ
  lastOrderDate : Option ℚ
deriving DecidableEq

/-- A service row (`services` table): id, base price and category. -/
structure Service where
  id : ℕ
  base_price : ℚ
  service_category : String
deriving DecidableEq

/-- A service-order row. `depthData` models the `depth` field stored in
the JSON `service_data` column by `createTriggeredService`
(`depth: depth + 1`); organically created orders carry none. -/
structure ServiceOrder where
  id : ℕ
  client_id : ℕ
  service_id : ℕ
  status : String
  base_price : ℚ
  final_price : ℚ
  depthData : Option ℕ
deriving DecidableEq

/-- A `cascade_triggers` row: created pending by `triggerCascade`,
updated to converted by `createTriggeredService`. -/
structure CascadeTrigger where
  id : ℕ
  client_id : ℕ
  entry_order_id : ℕ
  cascade_id : ℕ
  converted : Bool
  triggered_order_id : Option ℕ
deriving DecidableEq

/-- A rule's condition set: the parsed JSON object, as an association
list of key/value pairs. -/
abbrev Conditions := List (String × JsVal)

/-- Property access `conditions.k` on the parsed JSON object
(`none` = `undefined`). -/
def getCond (conds : Conditions) (k : String) : Option JsVal :=
  (conds.find? (fun p => p.1 == k)).map (·.2)

/-- Truthiness of `conditions.k` (the guard of each condition check). -/
def condTruthy (conds : Conditions) (k : String) : Bool :=
  match getCond conds k with
  | some v => v.truthy
  | none => false

/-- Numeric coercion of `conditions.k` for `<`/`>` comparisons. -/
def condNum (conds : Conditions) (k : String) : Option ℚ :=
  (getCond conds k).bind JsVal.toNumber

/-- `hasFinancingNeed` (part_000 line 431):
`client.credit_score < 700 || client.vehicle_value > 50000`. -/
def hasFinancingNeed (c : Client) : Bool :=
  jsLtQ c.credit_score 700 || jsGtQ c.vehicle_value 50000

/-- `hasVehiclePurchaseIntent` (line 435): journey stage is
`consideration` or `purchase`. -/
def hasVehiclePurchaseIntent (c : Client) : Bool :=
  c.journey_stage == some "consideration" || c.journey_stage == some "purchase"

/-- `hasBusinessFinancingNeed` (line 439):
`client.client_type === 'business' || client.business_name` (truthy). -/
def hasBusinessFinancingNeed (c : Client) : Bool :=
  c.client_type == some "business" ||
    (match c.business_name with
     | some s => !(s == "")
     | none => false)

/-- `hasVehicleConditionIssues` (line 443): some vehicle has condition
`fair` or `poor`. -/
def hasVehicleConditionIssues (c : Client) : Bool :=
  c.vehicles.any (fun v => v.condition == "fair" || v.condition == "poor")

/-- `getDaysSinceLastOrder` (line 447): 999 when no last order,
otherwise `Math.floor((now - lastOrderDate) / 86400000)`. -/
def getDaysSinceLastOrder (c : Client) (now : ℚ) : ℚ :=
  match c.lastOrderDate with
  | none => 999
  | some t => ((⌊(now - t) / (24 * 60 * 60 * 1000)⌋ : ℤ) : ℚ)

/-- `needsCreditImprovement` (line 452): `client.credit_score < 650`. -/
def needsCreditImprovement (c : Client) : Bool :=
  jsLtQ c.credit_score 650

/-- `hasComplexLegalNeeds` (line 456):
`client.client_type === 'business' || client.totalSpent > 100000`. -/
def hasComplexLegalNeeds (c : Client) : Bool :=
  c.client_type == some "business" || decide (100000 < c.totalSpent)

/-- Line 355: `conditions.min_credit_score && client.credit_score <
conditions.min_credit_score`. -/
def failMinCreditScore (conds : Conditions) (c : Client) : Bool :=
  condTruthy conds "min_credit_score" &&
    jsLtOpt c.credit_score (condNum conds "min_credit_score")

/-- Line 359: `conditions.max_credit_score && client.credit_score >
conditions.max_credit_score`. -/
def failMaxCreditScore (conds : Conditions) (c : Client) : Bool :=
  condTruthy conds "max_credit_score" &&
    jsGtOpt c.credit_score (condNum conds "max_credit_score")

/-- Line 364: minimum vehicle value check. -/
def failMinVehicleValue (conds : Conditions) (c : Client) : Bool :=
  condTruthy conds "min_vehicle_value" &&
    jsLtOpt c.vehicle_value (condNum conds "min_vehicle_value")

/-- Line 369: minimum annual income check. -/
def failMinAnnualIncome (conds : Conditions) (c : Client) : Bool :=
  condTruthy conds "min_annual_income" &&
    jsLtOpt c.annual_income (condNum conds "min_annual_income")

/-- Line 374: `conditions.journey_stage && client.journey_stage !==
conditions.journey_stage` (strict inequality). -/
def failJourneyStage (conds : Conditions) (c : Client) : Bool :=
  condTruthy conds "journey_stage" &&
    !(match c.journey_stage, getCond conds "journey_stage" with
      | some s, some (.str t) => s == t
      | _, _ => false)

/-- Line 379: financing-needed flag. -/
def failFinancingNeeded (conds : Conditions) (c : Client) : Bool :=
  condTruthy conds "financing_needed" && !hasFinancingNeed c

/-- Line 383: vehicle-purchase-intent flag. -/
def failVehiclePurchaseIntent (conds : Conditions) (c : Client) : Bool :=
  condTruthy conds "vehicle_purchase_intent" && !hasVehiclePurchaseIntent c

/-- Line 387: business-financing flag. -/
def failBusinessFinancingNeeded (conds : Conditions) (c : Client) : Bool :=
  condTruthy conds "business_financing_needed" && !hasBusinessFinancingNeed c

/-- Line 392: vehicle-condition flag. -/
def failVehicleConditionFairOrBelow (conds : Conditions) (c : Client) : Bool :=
  condTruthy conds "vehicle_condition_fair_or_below" && !hasVehicleConditionIssues c

/-- Lines 397-402: minimum days since last order. -/
def failMinDaysSinceLastOrder (conds : Conditions) (c : Client) (now : ℚ) : Bool :=
  condTruthy conds "min_days_since_last_order" &&
    jsLtOpt (some (getDaysSinceLastOrder c now)) (condNum conds "min_days_since_last_order")

/-- Line 405: minimum total spend. -/
def failMinTotalSpent (conds : Conditions) (c : Client) : Bool :=
  condTruthy conds "min_total_spent" &&
    jsLtOpt (some c.totalSpent) (condNum conds "min_total_spent")

/-- Line 410: credit-improvement flag. -/
def failCreditScoreImprovementNeeded (conds : Conditions) (c : Client) : Bool :=
  condTruthy conds "credit_score_improvement_needed" && !needsCreditImprovement c

/-- Line 414: complex-legal-structure flag. -/
def failLegalStructureComplex (conds : Conditions) (c : Client) : Bool :=
  condTruthy conds "legal_structure_complex" && !hasComplexLegalNeeds c

/-- `CascadeEngine.evaluateConditions` (part_000 lines 348-428): empty
condition set evaluates to true; otherwise the checks run in source
order, any failing check returning false. The `order` argument is
accepted but (as in the source) never read. `now` models `Date.now()`
used by the days-since-last-order predicate. -/
def evaluateConditions (conds : Conditions) (c : Client) (order : ServiceOrder)
    (now : ℚ) : Bool :=
  if conds.isEmpty then true
  else if failMinCreditScore conds c then false
  else if failMaxCreditScore conds c then false
  else if failMinVehicleValue conds c then false
  else if failMinAnnualIncome conds c then false
  else if failJourneyStage conds c then false
  else if failFinancingNeeded conds c then false
  else if failVehiclePurchaseIntent conds c then false
  else if failBusinessFinancingNeeded conds c then false
  else if failVehicleConditionFairOrBelow conds c then false
  else if failMinDaysSinceLastOrder conds c now then false
  else if failMinTotalSpent conds c then false
  else if failCreditScoreImprovementNeeded conds c then false
  else if failLegalStructureComplex conds c then false
  else true

/-- The listed predicate for the minimum-credit-score condition: passes
unless the condition is set (truthy) and the client fails it. -/
def chkMinCreditScore (conds : Conditions) (c : Client) : Bool :=
  !failMinCreditScore conds c

/-- Listed predicate: maximum credit score. -/
def chkMaxCreditScore (conds : Conditions) (c : Client) : Bool :=
  !failMaxCreditScore conds c

/-- Listed predicate: minimum vehicle value. -/
def chkMinVehicleValue (conds : Conditions) (c : Client) : Bool :=
  !failMinVehicleValue conds c

/-- Listed predicate: minimum annual income. -/
def chkMinAnnualIncome (conds : Conditions) (c : Client) : Bool :=
  !failMinAnnualIncome conds c

/-- Listed predicate: required journey stage. -/
def chkJourneyStage (conds : Conditions) (c : Client) : Bool :=
  !failJourneyStage conds c

/-- Listed predicate: financing needed. -/
def chkFinancingNeeded (conds : Conditions) (c : Client) : Bool :=
  !failFinancingNeeded conds c

/-- Listed predicate: vehicle purchase intent. -/
def chkVehiclePurchaseIntent (conds : Conditions) (c : Client) : Bool :=
  !failVehiclePurchaseIntent conds c

/-- Listed predicate: business financing needed. -/
def chkBusinessFinancingNeeded (conds : Conditions) (c : Client) : Bool :=
  !failBusinessFinancingNeeded conds c

/-- Listed predicate: vehicle condition fair or below. -/
def chkVehicleConditionFairOrBelow (conds : Conditions) (c : Client) : Bool :=
  !failVehicleConditionFairOrBelow conds c

/-- Listed predicate: minimum days since last order. -/
def chkMinDaysSinceLastOrder (conds : Conditions) (c : Client) (now : ℚ) : Bool :=
  !failMinDaysSinceLastOrder conds c now

/-- Listed predicate: minimum total spend. -/
def chkMinTotalSpent (conds : Conditions) (c : Client) : Bool :=
  !failMinTotalSpent conds c

/-- Listed predicate: credit-score improvement needed. -/
def chkCreditScoreImprovementNeeded (conds : Conditions) (c : Client) : Bool :=
  !failCreditScoreImprovementNeeded conds c

/-- Listed predicate: complex legal structure. -/
def chkLegalStructureComplex (conds : Conditions) (c : Client) : Bool :=
  !failLegalStructureComplex conds c

/-- The conjunction of all thirteen listed predicates, in source
order. -/
def allChecks (conds : Conditions) (c : Client) (now : ℚ) : Bool :=
  chkMinCreditScore conds c &&
  (chkMaxCreditScore conds c &&
  (chkMinVehicleValue conds c &&
  (chkMinAnnualIncome conds c &&
  (chkJourneyStage conds c &&
  (chkFinancingNeeded conds c &&
  (chkVehiclePurchaseIntent conds c &&
  (chkBusinessFinancingNeeded conds c &&
  (chkVehicleConditionFairOrBelow conds c &&
  (chkMinDaysSinceLastOrder conds c now &&
  (chkMinTotalSpent conds c &&
  (chkCreditScoreImprovementNeeded conds c &&
  chkLegalStructureComplex conds c)))))))))))

theorem bool_ite_false (b r : Bool) :
    (if b = true then false else r) = (!b && r) := by
  cases b <;> simp

theorem evaluateConditions_eq_allChecks (conds : Conditions) (c : Client)
    (order : ServiceOrder) (now : ℚ) :
    evaluateConditions conds c order now = allChecks conds c now := by
  rcases conds with _ | ⟨p, rest⟩
  · simp [evaluateConditions, allChecks, chkMinCreditScore, chkMaxCreditScore,
      chkMinVehicleValue, chkMinAnnualIncome, chkJourneyStage, chkFinancingNeeded,
      chkVehiclePurchaseIntent, chkBusinessFinancingNeeded,
      chkVehicleConditionFairOrBelow, chkMinDaysSinceLastOrder, chkMinTotalSpent,
      chkCreditScoreImprovementNeeded, chkLegalStructureComplex,
      failMinCreditScore, failMaxCreditScore, failMinVehicleValue,
      failMinAnnualIncome, failJourneyStage, failFinancingNeeded,
      failVehiclePurchaseIntent, failBusinessFinancingNeeded,
      failVehicleConditionFairOrBelow, failMinDaysSinceLastOrder,
      failMinTotalSpent, failCreditScoreImprovementNeeded,
      failLegalStructureComplex, condTruthy, getCond]
  · simp only [evaluateConditions, List.isEmpty_cons, Bool.false_eq_true,
      if_false, bool_ite_false, allChecks, chkMinCreditScore, chkMaxCreditScore,
      chkMinVehicleValue, chkMinAnnualIncome, chkJourneyStage, chkFinancingNeeded,
      chkVehiclePurchaseIntent, chkBusinessFinancingNeeded,
      chkVehicleConditionFairOrBelow, chkMinDaysSinceLastOrder, chkMinTotalSpent,
      chkCreditScoreImprovementNeeded, chkLegalStructureComplex, Bool.and_true]

/-- A cascade rule as built by `loadCascadeRules` (part_000 lines
51-62). -/
structure Rule where
  id : ℕ
  entryServiceId : ℕ
  triggeredServiceId : ℕ
  conversionRate : ℚ
  priority : ℤ
  conditions : Conditions
deriving DecidableEq

/-- A `service_cascades` row joined with service names, as returned by
the `loadCascadeRules` query (already ordered by the SQL
`ORDER BY priority ASC, conversion_rate DESC`). `conditions` is the raw
JSON column: `none` models a NULL/absent value (the code substitutes
`{}`). -/
structure CascadeRow where
  id : ℕ
  entry_service_id : ℕ
  triggered_service_id : ℕ
  conversion_rate : ℚ
  priority : ℤ
  conditions : Option Conditions
deriving DecidableEq

/-- The in-memory rule index: entry service id to its rules, in load
order (a `Map` with insertion-ordered keys). -/
abbrev RuleIndex := List (ℕ × List Rule)

/-- Append a rule to its entry-service group, creating the group at the
end if absent (JS `Map.set` insertion order). -/
def addToIndex (idx : RuleIndex) (key : ℕ) (r : Rule) : RuleIndex :=
  match idx with
  | [] => [(key, [r])]
  | (k, rs) :: rest =>
      if k == key then (k, rs ++ [r]) :: rest
      else (k, rs) :: addToIndex rest key r

/-- `CascadeEngine.loadCascadeRules` (part_000 lines 26-69): group the
active-rule rows by entry service id, parsing the conditions JSON
(`rule.conditions ? JSON.parse(rule.conditions) : {}`). No validation
of condition keys is performed. -/
def loadCascadeRules (rows : List CascadeRow) : RuleIndex :=
  rows.foldl
    (fun idx row =>
      addToIndex idx row.entry_service_id
        { id := row.id
          entryServiceId := row.entry_service_id
          triggeredServiceId := row.triggered_service_id
          conversionRate := row.conversion_rate
          priority := row.priority
          conditions := row.conditions.getD [] })
    []

/-- Engine configuration (part_000 constructor): activation threshold
(`CASCADE_TRIGGER_THRESHOLD` or 0.75), maximum cascade depth (3) and the
loaded rule index. The definitions below model the engine after
`initialize()` has succeeded. -/
structure EngineCfg where
  conversionThreshold : ℚ
  maxCascadeDepth : ℕ
  rules : RuleIndex

/-- `this.cascadeRules.get(serviceId)`, with a missing entry giving the
empty list (the caller checks `!rules || rules.length === 0`). -/
def rulesFor (cfg : EngineCfg) (serviceId : ℕ) : List Rule :=
  ((cfg.rules.find? (fun p => p.1 == serviceId)).map (·.2)).getD []

/-- The backing store visible to the cascade engine.
`ordersLookupFails` models the store read inside
`checkExistingService` throwing (the `catch` there returns null). -/
structure Store where
  services : List Service
  serviceOrders : List ServiceOrder
  cascadeTriggers : List CascadeTrigger
  clients : List Client
  nextOrderId : ℕ
  nextTriggerId : ℕ
  ordersLookupFails : Bool
deriving DecidableEq

/-- `database.findById('services', id)`. -/
def findService (s : Store) (serviceId : ℕ) : Option Service :=
  s.services.find? (fun sv => sv.id == serviceId)

/-- `database.findById('service_orders', id)`. -/
def findOrder (s : Store) (orderId : ℕ) : Option ServiceOrder :=
  s.serviceOrders.find? (fun o => o.id == orderId)

/-- The client profile provider (`getClientProfile`), modelled as a
lookup of the cached aggregated snapshot. -/
def findClient (s : Store) (clientId : ℕ) : Option Client :=
  s.clients.find? (fun c => c.id == clientId)

/-- `CascadeEngine.checkExistingService` (part_000 lines 460-471):
`findOne('service_orders', {client_id, service_id})`; a store error is
caught and null returned. -/
def checkExistingService (s : Store) (clientId serviceId : ℕ) : Option ServiceOrder :=
  if s.ordersLookupFails then none
  else s.serviceOrders.find? (fun o => o.client_id == clientId && o.service_id == serviceId)

/-- The pricing breakdown returned by
`CascadeEngine.calculateDynamicPricing`. -/
structure CascadePricing where
  basePrice : ℚ
  finalPrice : ℚ
  discountAmount : ℚ
  discountPercentage : ℚ
deriving DecidableEq

/-- `CascadeEngine.calculateDynamicPricing` (part_000 lines 473-521):
discount-based — the largest of the premium-spend (10%), excellent-credit
(5%, score > 750), first-time (15%) and volume (8%, more than 5 orders)
discounts, with the final price floored at 50% of the base price. -/
def calculateDynamicPricing (service : Service) (client : Client) : CascadePricing :=
  let basePrice := service.base_price
  let d1 : ℚ := if 50000 < client.totalSpent then basePrice * (0.1 : ℚ) else 0
  let d2 : ℚ := if jsGtQ client.credit_score 750 then max d1 (basePrice * (0.05 : ℚ)) else d1
  let d3 : ℚ := if client.totalOrders == 0 then max d2 (basePrice * (0.15 : ℚ)) else d2
  let d4 : ℚ := if 5 < client.totalOrders then max d3 (basePrice * (0.08 : ℚ)) else d3
  let finalPrice := max (basePrice - d4) (basePrice * (0.5 : ℚ))
  { basePrice := basePrice
    finalPrice := finalPrice
    discountAmount := d4
    discountPercentage := if 0 < d4 then (d4 / basePrice) * 100 else 0 }

/-- A task scheduled by the `setTimeout` in `triggerCascade` (line 161):
the closure captured by the deferred `createTriggeredService` call. -/
structure Deferred where
  rule : Rule
  client : Client
  trigger : CascadeTrigger
  depth : ℕ
deriving DecidableEq

/-- One iteration of the rule loop in `triggerCascade` (part_000 lines
107-181): threshold check, duplicate-suppression check, condition
evaluation, probabilistic draw (consuming the head of the random
oracle), then creation of the pending `cascade_triggers` row and
scheduling of the deferred order creation. -/
def processRule (cfg : EngineCfg) (client : Client) (order : ServiceOrder)
    (now : ℚ) (depth : ℕ) (rule : Rule) (store : Store) (rand : List ℚ) :
    Store × List ℚ × Option Deferred :=
  if rule.conversionRate < cfg.conversionThreshold then (store, rand, none)
  else if (checkExistingService store client.id rule.triggeredServiceId).isSome then
    (store, rand, none)
  else if !(evaluateConditions rule.conditions client order now) then (store, rand, none)
  else
    let draw := rand.headD 1
    let rest := rand.tail
    if !(decide (draw < rule.conversionRate)) then (store, rest, none)
    else
      let trig : CascadeTrigger :=
        { id := store.nextTriggerId
          client_id := client.id
          entry_order_id := order.id
          cascade_id := rule.id
          converted := false
          triggered_order_id := none }
      ({ store with
          cascadeTriggers := store.cascadeTriggers ++ [trig]
          nextTriggerId := store.nextTriggerId + 1 },
       rest,
       some { rule := rule, client := client, trigger := trig, depth := depth })

/-- The rule loop of `triggerCascade`, threading the store and the
random oracle and accumulating the deferred tasks in order. -/
def evalRulesLoop (cfg : EngineCfg) (client : Client) (order : ServiceOrder)
    (now : ℚ) (depth : ℕ) :
    List Rule → Store → List ℚ → List Deferred → Store × List Deferred
  | [], store, _, ds => (store, ds)
  | r :: rs, store, rand, ds =>
      let (s', rand', d) := processRule cfg client order now depth r store rand
      evalRulesLoop cfg client order now depth rs s' rand' (ds ++ d.toList)

/-- `CascadeEngine.triggerCascade` (part_000 lines 71-186) for an
initialized engine: depth guard, completed-order lookup, rule lookup,
client-profile lookup, then the rule loop. Returns the updated store
together with the deferred `createTriggeredService` tasks scheduled by
`setTimeout` (which run only after the 5-second delay, i.e. after this
call has returned). -/
def triggerCascade (cfg : EngineCfg) (store : Store) (serviceOrderId clientId : ℕ)
    (depth : ℕ) (rand : List ℚ) (now : ℚ) : Store × List Deferred :=
  if cfg.maxCascadeDepth ≤ depth then (store, [])
  else
    match findOrder store serviceOrderId with
    | none => (store, [])
    | some order =>
        if !(order.status == "completed") then (store, [])
        else
          let rules := rulesFor cfg order.service_id
          if rules.isEmpty then (store, [])
          else
            match findClient store clientId with
            | none => (store, [])
            | some client => evalRulesLoop cfg client order now depth rules store rand []

/-- `CascadeEngine.createTriggeredService` (part_000 lines 188-273):
look up the triggered service, price it with `calculateDynamicPricing`,
create the pending order storing `depth + 1` in its service data, and
mark the cascade trigger converted with the new order id. It performs no
duplicate-suppression re-check. -/
def createTriggeredService (store : Store) (d : Deferred) : Store :=
  match findService store d.rule.triggeredServiceId with
  | none => store
  | some service =>
      let pricing := calculateDynamicPricing service d.client
      let newOrder : ServiceOrder :=
        { id := store.nextOrderId
          client_id := d.client.id
          service_id := service.id
          status := "pending"
          base_price := service.base_price
          final_price := pricing.finalPrice
          depthData := some (d.depth + 1) }
      { store with
          serviceOrders := store.serviceOrders ++ [newOrder]
          nextOrderId := store.nextOrderId + 1
          cascadeTriggers := store.cascadeTriggers.map
            (fun t =>
              if t.id == d.trigger.id then
                { t with converted := true, triggered_order_id := some newOrder.id }
              else t) }

/-- Run the deferred tasks in scheduling order (the timers all expire
after the evaluation loops that scheduled them). -/
def runDeferred (store : Store) (ds : List Deferred) : Store :=
  ds.foldl createTriggeredService store

/-- A cascade evaluation together with its deferred order creations,
fully settled before anything else happens. -/
def cascadeRun (cfg : EngineCfg) (store : Store) (serviceOrderId clientId : ℕ)
    (depth : ℕ) (rand : List ℚ) (now : ℚ) : Store :=
  let (s, ds) := triggerCascade cfg store serviceOrderId clientId depth rand now
  runDeferred s ds

/-- The status update of the order-update endpoint
(src/src/api/services.js line 682). -/
def markCompleted (store : Store) (orderId : ℕ) : Store :=
  { store with
      serviceOrders := store.serviceOrders.map
        (fun o => if o.id == orderId then { o with status := "completed" } else o) }

/-- The completion path of the order-update endpoint
(src/src/api/services.js lines 657-687 and 950-979): set the status to
completed and, when the order was not already completed, call
`handleServiceCompletion`, which invokes
`cascadeEngine.triggerCascade(orderId, clientId)` — with no depth
argument, so `depth` defaults to 0; the depth stored in the order's
service data is never read. -/
def webhookCompletion (cfg : EngineCfg) (store : Store) (orderId clientId : ℕ)
    (rand : List ℚ) (now : ℚ) : Store :=
  match findOrder store orderId with
  | none => store
  | some o =>
      let s' := markCompleted store orderId
      if o.status == "completed" then s'
      else cascadeRun cfg s' orderId clientId 0 rand now

/-- The multiset of rule ids referenced by the trigger records in the
store. -/
def triggerIds (s : Store) : List ℕ := s.cascadeTriggers.map (·.cascade_id)

/-- `this.priceAdjustmentCap` — hardcoded to 0.3 in the
`RevenueOptimizer` constructor (optimizer.js line 12). -/
def priceAdjustmentCap : ℚ := 0.3

/-- A client profile as aggregated by
`RevenueOptimizer.getClientProfile` (optimizer.js lines 385-425):
`services_count` is always a number (`parseInt(...) || 0`); score and
vehicle value may be absent. -/
structure OptClient where
  credit_score : Option ℚ
  vehicle_value : Option ℚ
  services_count : ℕ
deriving DecidableEq

/-- Request options of `calculateOptimalPrice`. -/
structure PriceOptions where
  urgency : Option String
  bundleSize : Option ℕ
deriving DecidableEq

/-- `getCreditScoreFactor` (optimizer.js lines 308-316) with the default
credit-score multipliers; `!creditScore` (absent or 0) gives the neutral
factor 1.0. -/
def getCreditScoreFactor (creditScore : Option ℚ) : ℚ :=
  match creditScore with
  | none => 1
  | some c =>
      if c == 0 then 1
      else if 750 ≤ c then 1.0
      else if 650 ≤ c then 1.05
      else if 550 ≤ c then 1.1
      else if 450 ≤ c then 1.15
      else 1.2

/-- `getVehicleValueFactor` (lines 318-325) with the default
vehicle-value multipliers. -/
def getVehicleValueFactor (vehicleValue : Option ℚ) : ℚ :=
  match vehicleValue with
  | none => 1
  | some v =>
      if v == 0 then 1
      else if 100000 ≤ v then 1.15
      else if 50000 ≤ v then 1.1
      else if 25000 ≤ v then 1.0
      else 0.95

/-- `getLoyaltyFactor` (lines 327-332) with the default loyalty
discounts. -/
def getLoyaltyFactor (servicesCount : ℕ) : ℚ :=
  if servicesCount == 0 then 0.85
  else if servicesCount ≤ 3 then 0.95
  else if servicesCount ≤ 10 then 0.9
  else 0.85

/-- `getVolumeFactor` (lines 334-338) with the default volume
discounts. -/
def getVolumeFactor (bundleSize : ℕ) : ℚ :=
  if 4 ≤ bundleSize then 0.85
  else if 2 ≤ bundleSize then 0.92
  else 1.0

/-- The default seasonal-factor tables loaded by `loadSeasonalFactors`
(lines 82-138), keyed by service category and calendar month; `none`
for unlisted categories or months. -/
def seasonalTable (category : String) (month : ℕ) : Option ℚ :=
  if category == "financial" then
    match month with
    | 1 => some 1.2 | 2 => some 1.15 | 3 => some 1.1 | 4 => some 1.0
    | 5 => some 0.95 | 6 => some 0.9 | 7 => some 0.9 | 8 => some 0.95
    | 9 => some 1.05 | 10 => some 1.1 | 11 => some 1.15 | 12 => some 1.25
    | _ => none
  else if category == "inspection" then
    match month with
    | 1 => some 0.9 | 2 => some 0.95 | 3 => some 1.1 | 4 => some 1.2
    | 5 => some 1.15 | 6 => some 1.1 | 7 => some 1.05 | 8 => some 1.0
    | 9 => some 1.1 | 10 => some 1.15 | 11 => some 1.0 | 12 => some 0.9
    | _ => none
  else if category == "transport" then
    match month with
    | 1 => some 0.9 | 2 => some 0.95 | 3 => some 1.1 | 4 => some 1.15
    | 5 => some 1.2 | 6 => some 1.25 | 7 => some 1.2 | 8 => some 1.15
    | 9 => some 1.1 | 10 => some 1.0 | 11 => some 0.95 | 12 => some 0.9
    | _ => none
  else none

/-- `getSeasonalFactor` (lines 340-344): table lookup with 1.0 for
unlisted categories or months. -/
def getSeasonalFactor (category : String) (month : ℕ) : ℚ :=
  (seasonalTable category month).getD 1.0

/-- The default market conditions loaded by `loadMarketConditions`
(lines 140-176). -/
def defaultMarketConditions : List (String × ℚ) :=
  [("economy", 1.0), ("automotive", 1.05), ("credit", 0.98)]

/-- `getMarketFactor` (lines 346-349): per-category factor with 1.0 when
the category is not in the map. -/
def getMarketFactor (marketConditions : List (String × ℚ)) (category : String) : ℚ :=
  (((marketConditions.find? (fun p => p.1 == category)).map (·.2)).getD 1.0)

/-- `urgencyPremiums[u] || 1.0` (lines 65-69 and 249). -/
def urgencyPremium (u : String) : ℚ :=
  if u == "standard" then 1.0
  else if u == "expedited" then 1.25
  else if u == "emergency" then 1.5
  else 1.0

/-- Optimizer configuration: initialization flag, the
`DYNAMIC_PRICING_ENABLED` switch, the current calendar month read by the
seasonal lookup, and the market-conditions map. -/
structure OptCfg where
  isInitialized : Bool
  dynamicPricingEnabled : Bool
  month : ℕ
  marketConditions : List (String × ℚ)

/-- The factor-application phase of `calculateOptimalPrice` (optimizer.js
lines 196-268): sequential multiplication by the credit, vehicle-value,
loyalty, seasonal and market factors, plus the optional urgency premium
(`if (options.urgency)`) and volume discount
(`if (options.bundleSize && options.bundleSize > 1)`); skipped entirely
when dynamic pricing is disabled. Returns the accumulated price and the
itemized `(type, factor)` list. -/
def adjustedPrice (cfg : OptCfg) (service : Service) (client : OptClient)
    (options : PriceOptions) : ℚ × List (String × ℚ) :=
  let basePrice := service.base_price
  if cfg.dynamicPricingEnabled then
    let creditFactor := getCreditScoreFactor client.credit_score
    let f1 := basePrice * creditFactor
    let vehicleFactor := getVehicleValueFactor client.vehicle_value
    let f2 := f1 * vehicleFactor
    let loyaltyFactor := getLoyaltyFactor client.services_count
    let f3 := f2 * loyaltyFactor
    let seasonalFactor := getSeasonalFactor service.service_category cfg.month
    let f4 := f3 * seasonalFactor
    let marketFactor := getMarketFactor cfg.marketConditions service.service_category
    let f5 := f4 * marketFactor
    let base :=
      [("credit_score", creditFactor), ("vehicle_value", vehicleFactor),
       ("loyalty", loyaltyFactor), ("seasonal", seasonalFactor),
       ("market", marketFactor)]
    let (f6, l6) :=
      match options.urgency with
      | some u =>
          if !(u == "") then (f5 * urgencyPremium u, base ++ [("urgency", urgencyPremium u)])
          else (f5, base)
      | none => (f5, base)
    match options.bundleSize with
    | some n =>
        if 1 < n then (f6 * getVolumeFactor n, l6 ++ [("volume", getVolumeFactor n)])
        else (f6, l6)
    | none => (f6, l6)
  else (basePrice, [])

/-- The clamping step (lines 270-273): the accumulated price clamped to
`[basePrice × (1 − cap), basePrice × (1 + cap)]`. -/
def clampedPrice (cfg : OptCfg) (service : Service) (client : OptClient)
    (options : PriceOptions) : ℚ :=
  let basePrice := service.base_price
  let maxPrice := basePrice * (1 + priceAdjustmentCap)
  let minPrice := basePrice * (1 - priceAdjustmentCap)
  min (max (adjustedPrice cfg service client options).1 minPrice) maxPrice

/-- `estimateServiceCost` (lines 351-383). -/
def estimateServiceCost (service : Service) (client : OptClient) : ℚ :=
  let baseCost := service.base_price * 0.35
  let complexityFactor : ℚ :=
    if service.service_category == "financial" then 1.2
    else if service.service_category == "legal" then 1.3
    else if service.service_category == "inspection" then 0.8
    else if service.service_category == "transport" then 0.9
    else if service.service_category == "administrative" then 0.7
    else if service.service_category == "maintenance" then 1.1
    else if service.service_category == "parts" then 0.6
    else if service.service_category == "purchase" then 0.4
    else if service.service_category == "sales" then 0.3
    else if service.service_category == "business" then 1.4
    else if service.service_category == "support" then 1.0
    else 1.0
  let c1 := baseCost * complexityFactor
  let c2 := if jsLtQ client.credit_score 600 then c1 * 1.1 else c1
  let c3 := if jsGtQ client.vehicle_value 100000 then c2 * 1.15 else c2
  round2 c3

/-- The pricing object built at optimizer.js lines 279-288. As in the
source, the `finalPrice` field is the rounded clamped price, while the
margin, discount, premium and total-adjustment fields are computed from
the unrounded clamped price. -/
structure PricingResult where
  basePrice : ℚ
  finalPrice : ℚ
  adjustmentFactors : List (String × ℚ)
  estimatedCost : ℚ
  profitMargin : ℚ
  discountAmount : ℚ
  premiumAmount : ℚ
  totalAdjustment : ℚ
deriving DecidableEq

/-- The pure pricing computation of `calculateOptimalPrice` for a
resolved service and client (optimizer.js lines 196-288). -/
def computeOptimalPrice (cfg : OptCfg) (service : Service) (client : OptClient)
    (options : PriceOptions) : PricingResult :=
  let basePrice := service.base_price
  let finalPrice := clampedPrice cfg service client options
  let estimatedCost := estimateServiceCost service client
  { basePrice := basePrice
    finalPrice := round2 finalPrice
    adjustmentFactors := (adjustedPrice cfg service client options).2
    estimatedCost := estimatedCost
    profitMargin := (finalPrice - estimatedCost) / finalPrice
    discountAmount := max 0 (basePrice - finalPrice)
    premiumAmount := max 0 (finalPrice - basePrice)
    totalAdjustment := (finalPrice - basePrice) / basePrice }

/-- `RevenueOptimizer.calculateOptimalPrice` (optimizer.js lines
178-306) as seen by its caller: any internal throw — engine not
initialized, `Service not found`, `Client not found` (including a failed
profile read, which `getClientProfile` surfaces as null) — is caught and
re-thrown by `handleRevenueError` as an `AppError` with code
`REVENUE_SERVICE_ERROR` (errorHandler.js lines 234-245). -/
def calculateOptimalPrice (cfg : OptCfg) (services : List Service)
    (clients : List (ℕ × OptClient)) (serviceId clientId : ℕ)
    (options : PriceOptions) : Except String PricingResult :=
  if !cfg.isInitialized then .error "REVENUE_SERVICE_ERROR"
  else
    match services.find? (fun sv => sv.id == serviceId) with
    | none => .error "REVENUE_SERVICE_ERROR"
    | some service =>
        match (clients.find? (fun p => p.1 == clientId)).map (·.2) with
        | none => .error "REVENUE_SERVICE_ERROR"
        | some client => .ok (computeOptimalPrice cfg service client options)

/-- A client snapshot with credit score 720 and every discount and flag
condition neutral (mid-range spend, two prior orders). -/
def clientNeutral : Client :=
  { id := 7
    credit_score := some 720
    vehicle_value := none
    annual_income := none
    journey_stage := none
    client_type := none
    business_name := none
    vehicles := []
    totalSpent := 1000
    totalOrders := 2
    lastOrderDate := none }

/-- Rule: completing service 1 cascades to service 3 (rate 0.8). -/
def ruleOneToThree : Rule :=
  { id := 100, entryServiceId := 1, triggeredServiceId := 3
    conversionRate := 0.8, priority := 1, conditions := [] }

/-- Rule: completing service 2 also cascades to service 3 (rate 0.8). -/
def ruleTwoToThree : Rule :=
  { id := 200, entryServiceId := 2, triggeredServiceId := 3
    conversionRate := 0.8, priority := 1, conditions := [] }

/-- Engine with the two rules that both target service 3. -/
def cfgTwoRules : EngineCfg :=
  { conversionThreshold := 0.75, maxCascadeDepth := 3
    rules := [(1, [ruleOneToThree]), (2, [ruleTwoToThree])] }

/-- Store for the duplicate-suppression scenario: client 7 has completed
orders 10 (service 1) and 11 (service 2) and holds no order for
service 3. -/
def storeTwoEntries : Store :=
  { services := [{ id := 3, base_price := 100, service_category := "financial" }]
    serviceOrders :=
      [{ id := 10, client_id := 7, service_id := 1, status := "completed"
         base_price := 100, final_price := 100, depthData := none },
       { id := 11, client_id := 7, service_id := 2, status := "completed"
         base_price := 100, final_price := 100, depthData := none }]
    cascadeTriggers := []
    clients := [clientNeutral]
    nextOrderId := 12
    nextTriggerId := 1
    ordersLookupFails := false }

/-- Both completions are evaluated inside the 5-second delay window, so
the deferred order creations run only after both evaluation loops — the
event-loop schedule the `setTimeout` in `triggerCascade` produces when
two orders complete within five seconds of each other. -/
def dupFinalStore : Store :=
  let r1 := triggerCascade cfgTwoRules storeTwoEntries 10 7 0 [0.1] 0
  let r2 := triggerCascade cfgTwoRules r1.1 11 7 0 [0.1] 0
  runDeferred r2.1 (r1.2 ++ r2.2)

/-- The spec scenario rule: service 1 cascades to service 2 with
conversion rate 0.84, priority 1, condition `min_credit_score: 500`. -/
def ruleScenario : Rule :=
  { id := 300, entryServiceId := 1, triggeredServiceId := 2
    conversionRate := 0.84, priority := 1
    conditions := [("min_credit_score", .num 500)] }

/-- Engine holding only the scenario rule. -/
def cfgScenario : EngineCfg :=
  { conversionThreshold := 0.75, maxCascadeDepth := 3
    rules := [(1, [ruleScenario])] }

/-- Service B of the spec scenario: base price 1000. -/
def svcB : Service := { id := 2, base_price := 1000, service_category := "financial" }

/-- The completed entry order of the spec scenario. -/
def entryOrderScenario : ServiceOrder :=
  { id := 10, client_id := 7, service_id := 1, status := "completed"
    base_price := 1000, final_price := 1000, depthData := none }

/-- Store for the scenario: service 2 has base price 1000; client 7
(credit 720) has completed entry order 10 for service 1. -/
def storeScenario : Store :=
  { services := [svcB]
    serviceOrders := [entryOrderScenario]
    cascadeTriggers := []
    clients := [clientNeutral]
    nextOrderId := 11
    nextTriggerId := 1
    ordersLookupFails := false }

/-- The scenario cascade, fully settled, with a forced random draw of
0.10. -/
def scenarioFinalStore : Store :=
  cascadeRun cfgScenario storeScenario 10 7 0 [0.1] 0

/-- A four-link rule chain 1 → 2 → 3 → 4 → 5, each with conversion rate
0.8 and no conditions. -/
def cfgChain : EngineCfg :=
  { conversionThreshold := 0.75, maxCascadeDepth := 3
    rules :=
      [(1, [{ id := 401, entryServiceId := 1, triggeredServiceId := 2
              conversionRate := 0.8, priority := 1, conditions := [] }]),
       (2, [{ id := 402, entryServiceId := 2, triggeredServiceId := 3
              conversionRate := 0.8, priority := 1, conditions := [] }]),
       (3, [{ id := 403, entryServiceId := 3, triggeredServiceId := 4
              conversionRate := 0.8, priority := 1, conditions := [] }]),
       (4, [{ id := 404, entryServiceId := 4, triggeredServiceId := 5
              conversionRate := 0.8, priority := 1, conditions := [] }])] }

/-- Store for the chain: services 2-5 exist; client 7 holds the organic
pending order 10 for service 1. -/
def storeChain : Store :=
  { services :=
      [{ id := 2, base_price := 100, service_category := "financial" },
       { id := 3, base_price := 100, service_category := "financial" },
       { id := 4, base_price := 100, service_category := "financial" },
       { id := 5, base_price := 100, service_category := "financial" }]
    serviceOrders :=
      [{ id := 10, client_id := 7, service_id := 1, status := "pending"
         base_price := 100, final_price := 100, depthData := none }]
    cascadeTriggers := []
    clients := [clientNeutral]
    nextOrderId := 11
    nextTriggerId := 1
    ordersLookupFails := false }

/-- Four successive order completions driven through the real completion
path (`handleServiceCompletion`): the organic order 10, then each
cascade-created order (11, 12, 13) as the client completes it. -/
def chainFinalStore : Store :=
  let s1 := webhookCompletion cfgChain storeChain 10 7 [0.1] 0
  let s2 := webhookCompletion cfgChain s1 11 7 [0.1] 0
  let s3 := webhookCompletion cfgChain s2 12 7 [0.1] 0
  webhookCompletion cfgChain s3 13 7 [0.1] 0

/-- C1 counterexample: two completions inside the deferral window. Both
rules target service 3; client 7 holds no order for service 3 when each
rule is checked, because the duplicate-suppression check (part_000 lines
119-128) runs before the deferred `createTriggeredService` calls write
anything: the settled state holds two orders for (client 7, service 3)
and two converted `CascadeTrigger` rows for that same pair — the second
order is created while the client already holds the first. -/
theorem cascade_duplicate_orders_possible :
    (dupFinalStore.serviceOrders.filter
        (fun o => o.client_id == 7 && o.service_id == 3)).length = 2 ∧
    (dupFinalStore.cascadeTriggers.filter
        (fun t => t.converted && t.client_id == 7)).length = 2 ∧
    ruleOneToThree.triggeredServiceId = 3 ∧
    ruleTwoToThree.triggeredServiceId = 3 := by
  with_unfolding_all decide

/-- C3 counterexample: the spec scenario (entry service 1 → service B
with base price 1000, conversion rate 0.84, condition
`min_credit_score: 500`, client credit score 720, forced draw 0.10). The
rule fires, but the created order is priced by the cascade engine's own
`calculateDynamicPricing`, not by the optimizer's multiplicative
algorithm: its final price is 1000, not
`round(1000 × 1.05) = 1050` as the claim requires for the 650-749
credit tier. -/
theorem cascade_price_not_multiplicative :
    (findOrder scenarioFinalStore 11).map (fun o => (o.service_id, o.final_price)) =
      some (2, 1000) ∧
    clientNeutral.credit_score = some 720 ∧
    round2 ((1000 : ℚ) * 1.05) = 1050 ∧
    ¬((1000 : ℚ) = 1050) := by
  with_unfolding_all decide

/-- C5 evaluation at the failing input: `triggerCascade` called at
depth 3 (≥ `maxCascadeDepth`) creates nothing — but the real completion
path (`handleServiceCompletion`) always calls it with the default
depth 0 and never reads the depth stored in `service_data`, so a chain
of four completions produces a cascade order for service 5 at the
fourth recommendation hop, every link recording stored depth 1. -/
theorem depth_guard_but_chain_unbounded :
    triggerCascade cfgChain storeChain 10 7 3 [0.1] 0 = (storeChain, []) ∧
    chainFinalStore.serviceOrders.map (fun o => (o.service_id, o.depthData)) =
      [(1, none), (2, some 1), (3, some 1), (4, some 1), (5, some 1)] := by
  with_unfolding_all decide

/-- Service with a base price below one cent. -/
def svcTinyPrice : Service :=
  { id := 1, base_price := 0.001, service_category := "financial" }

/-- An optimizer-side client profile with credit 720 and two prior
services. -/
def optClientNeutral : OptClient :=
  { credit_score := some 720, vehicle_value := none, services_count := 2 }

/-- No urgency, no bundle. -/
def optsNone : PriceOptions := { urgency := none, bundleSize := none }

/-- Optimizer with dynamic pricing disabled. -/
def cfgOptStatic : OptCfg :=
  { isInitialized := true, dynamicPricingEnabled := false, month := 4
    marketConditions := defaultMarketConditions }

/-- Optimizer with dynamic pricing enabled. -/
def cfgOptDynamic : OptCfg :=
  { isInitialized := true, dynamicPricingEnabled := true, month := 4
    marketConditions := defaultMarketConditions }

/-- C2 counterexample: with base price 0.001 the clamp keeps the price
at 0.001, inside `[0.0007, 0.0013]`, but the final rounding to the
smallest currency unit (optimizer.js line 281) rounds it to 0 — strictly
below `basePrice × (1 − cap) = 0.0007`, so the claimed bounds do not
survive the rounding step. -/
theorem rounded_price_below_floor :
    (computeOptimalPrice cfgOptStatic svcTinyPrice optClientNeutral optsNone).finalPrice
        = 0 ∧
    ¬(svcTinyPrice.base_price * (1 - priceAdjustmentCap) ≤
        (computeOptimalPrice cfgOptStatic svcTinyPrice optClientNeutral optsNone).finalPrice) := by
  with_unfolding_all decide

/-- C6 counterexample: with no service of id 1 in the store, the
`Service not found` throw is converted by `handleRevenueError` into a
thrown `AppError` — `calculateOptimalPrice` does not return a price to
its caller. -/
theorem pricing_throws_on_unknown_service :
    calculateOptimalPrice cfgOptDynamic [] [] 1 1 optsNone =
      .error "REVENUE_SERVICE_ERROR" := by
  with_unfolding_all rfl

/-- A cascade-rule row whose conditions JSON holds an unsupported key. -/
def rowUnknownKey : CascadeRow :=
  { id := 500, entry_service_id := 1, triggered_service_id := 2
    conversion_rate := 0.9, priority := 1
    conditions := some [("unknown_condition", .num 5)] }

/-- C8 counterexample: `loadCascadeRules` accepts the rule with the
unknown condition key verbatim (no load-time rejection or validation),
and `evaluateConditions` evaluates that condition set to true exactly as
if the key were absent — the unknown key is silently ignored. -/
theorem unknown_condition_key_loaded_and_passes :
    loadCascadeRules [rowUnknownKey] =
      [(1, [{ id := 500, entryServiceId := 1, triggeredServiceId := 2
              conversionRate := 0.9, priority := 1
              conditions := [("unknown_condition", .num 5)] }])] ∧
    evaluateConditions [("unknown_condition", .num 5)] clientNeutral
      entryOrderScenario 0 = true := by
  with_unfolding_all decide

/-- C7: `evaluateConditions` returns true on the empty condition set,
and on any condition set it returns exactly the conjunction of the
thirteen listed predicates — so any single failing predicate makes the
result false. -/
theorem evaluateConditions_conjunction :
    (∀ (conds : Conditions) (c : Client) (order : ServiceOrder) (now : ℚ),
        evaluateConditions conds c order now = allChecks conds c now) ∧
    (∀ (c : Client) (order : ServiceOrder) (now : ℚ),
        evaluateConditions [] c order now = true) ∧
    (∀ (conds : Conditions) (c : Client) (order : ServiceOrder) (now : ℚ),
        allChecks conds c now = false → evaluateConditions conds c order now = false) := by
  refine ⟨evaluateConditions_eq_allChecks, fun c order now => rfl, ?_⟩
  intro conds c order now h
  rw [evaluateConditions_eq_allChecks, h]

/-- The thirteen condition keys `evaluateConditions` inspects. -/
def knownCondKeys : List String :=
  ["min_credit_score", "max_credit_score", "min_vehicle_value", "min_annual_income",
   "journey_stage", "financing_needed", "vehicle_purchase_intent",
   "business_financing_needed", "vehicle_condition_fair_or_below",
   "min_days_since_last_order", "min_total_spent",
   "credit_score_improvement_needed", "legal_structure_complex"]

theorem getCond_cons_ne (key k : String) (v : JsVal) (conds : Conditions)
    (h : (key == k) = false) :
    getCond ((key, v) :: conds) k = getCond conds k := by
  simp [getCond, List.find?, h]

/-- C8 (amended): a condition entry whose key is not one of the
thirteen known keys has no effect on evaluation — the rule behaves
exactly as if the entry were absent. -/
theorem unknown_condition_key_ignored (key : String) (v : JsVal) (conds : Conditions)
    (c : Client) (order : ServiceOrder) (now : ℚ) (h : key ∉ knownCondKeys) :
    evaluateConditions ((key, v) :: conds) c order now =
      evaluateConditions conds c order now := by
  have hk : ∀ k, k ∈ knownCondKeys → (key == k) = false := by
    intro k hkmem
    rw [beq_eq_false_iff_ne]
    intro he
    exact h (he ▸ hkmem)
  have g : ∀ k, k ∈ knownCondKeys →
      getCond ((key, v) :: conds) k = getCond conds k :=
    fun k hkmem => getCond_cons_ne key k v conds (hk k hkmem)
  rw [evaluateConditions_eq_allChecks, evaluateConditions_eq_allChecks]
  simp only [allChecks, chkMinCreditScore, chkMaxCreditScore, chkMinVehicleValue,
    chkMinAnnualIncome, chkJourneyStage, chkFinancingNeeded, chkVehiclePurchaseIntent,
    chkBusinessFinancingNeeded, chkVehicleConditionFairOrBelow,
    chkMinDaysSinceLastOrder, chkMinTotalSpent, chkCreditScoreImprovementNeeded,
    chkLegalStructureComplex, failMinCreditScore, failMaxCreditScore,
    failMinVehicleValue, failMinAnnualIncome, failJourneyStage, failFinancingNeeded,
    failVehiclePurchaseIntent, failBusinessFinancingNeeded,
    failVehicleConditionFairOrBelow, failMinDaysSinceLastOrder, failMinTotalSpent,
    failCreditScoreImprovementNeeded, failLegalStructureComplex, condTruthy, condNum,
    g "min_credit_score" (by simp [knownCondKeys]),
    g "max_credit_score" (by simp [knownCondKeys]),
    g "min_vehicle_value" (by simp [knownCondKeys]),
    g "min_annual_income" (by simp [knownCondKeys]),
    g "journey_stage" (by simp [knownCondKeys]),
    g "financing_needed" (by simp [knownCondKeys]),
    g "vehicle_purchase_intent" (by simp [knownCondKeys]),
    g "business_financing_needed" (by simp [knownCondKeys]),
    g "vehicle_condition_fair_or_below" (by simp [knownCondKeys]),
    g "min_days_since_last_order" (by simp [knownCondKeys]),
    g "min_total_spent" (by simp [knownCondKeys]),
    g "credit_score_improvement_needed" (by simp [knownCondKeys]),
    g "legal_structure_complex" (by simp [knownCondKeys])]

/-- Witness for the amended C8 theorem at a concrete unknown key. -/
theorem unknown_condition_key_ignored_witness :
    evaluateConditions [("unknown_condition", .num 5)] clientNeutral
        entryOrderScenario 0 =
      evaluateConditions [] clientNeutral entryOrderScenario 0 :=
  unknown_condition_key_ignored "unknown_condition" (.num 5) [] clientNeutral
    entryOrderScenario 0 (by decide)

theorem jsLtOpt_none_left (b : Option ℚ) : jsLtOpt none b = false := by
  cases b <;> rfl

theorem jsGtOpt_none_left (b : Option ℚ) : jsGtOpt none b = false := by
  cases b <;> rfl

/-- C10: a condition entry with a falsy configured value (`0`, `false`,
`null`) fails its truthiness guard, so the corresponding predicate
passes — e.g. `min_credit_score: 0` and `financing_needed: false` impose
no constraint — and a client whose snapshot field is `undefined` passes
every min/max threshold comparison on that field, because a JavaScript
comparison against `undefined` is false. -/
theorem falsy_condition_and_missing_field_pass :
    (JsVal.truthy (.num 0) = false ∧ JsVal.truthy (.bool false) = false ∧
      JsVal.truthy .null = false) ∧
    (∀ (conds : Conditions) (c : Client),
        condTruthy conds "min_credit_score" = false → chkMinCreditScore conds c = true) ∧
    (∀ (conds : Conditions) (c : Client),
        condTruthy conds "financing_needed" = false → chkFinancingNeeded conds c = true) ∧
    (∀ (c : Client) (order : ServiceOrder) (now : ℚ),
        evaluateConditions [("min_credit_score", .num 0)] c order now = true) ∧
    (∀ (c : Client) (order : ServiceOrder) (now : ℚ),
        evaluateConditions [("financing_needed", .bool false)] c order now = true) ∧
    (∀ (c : Client) (order : ServiceOrder) (now : ℚ),
        evaluateConditions [("min_credit_score", .null)] c order now = true) ∧
    (∀ (conds : Conditions) (c : Client), c.credit_score = none →
        chkMinCreditScore conds c = true ∧ chkMaxCreditScore conds c = true) ∧
    (∀ (conds : Conditions) (c : Client), c.vehicle_value = none →
        chkMinVehicleValue conds c = true) ∧
    (∀ (conds : Conditions) (c : Client), c.annual_income = none →
        chkMinAnnualIncome conds c = true) := by
  refine ⟨⟨rfl, rfl, rfl⟩, ?_, ?_, ?_, ?_, ?_, ?_, ?_, ?_⟩
  · intro conds c h
    simp [chkMinCreditScore, failMinCreditScore, h]
  · intro conds c h
    simp [chkFinancingNeeded, failFinancingNeeded, h]
  · intro c order now
    rw [evaluateConditions_eq_allChecks]
    simp [allChecks, chkMinCreditScore, chkMaxCreditScore, chkMinVehicleValue,
      chkMinAnnualIncome, chkJourneyStage, chkFinancingNeeded,
      chkVehiclePurchaseIntent, chkBusinessFinancingNeeded,
      chkVehicleConditionFairOrBelow, chkMinDaysSinceLastOrder, chkMinTotalSpent,
      chkCreditScoreImprovementNeeded, chkLegalStructureComplex,
      failMinCreditScore, failMaxCreditScore, failMinVehicleValue,
      failMinAnnualIncome, failJourneyStage, failFinancingNeeded,
      failVehiclePurchaseIntent, failBusinessFinancingNeeded,
      failVehicleConditionFairOrBelow, failMinDaysSinceLastOrder, failMinTotalSpent,
      failCreditScoreImprovementNeeded, failLegalStructureComplex,
      condTruthy, condNum, getCond, JsVal.truthy]
  · intro c order now
    rw [evaluateConditions_eq_allChecks]
    simp [allChecks, chkMinCreditScore, chkMaxCreditScore, chkMinVehicleValue,
      chkMinAnnualIncome, chkJourneyStage, chkFinancingNeeded,
      chkVehiclePurchaseIntent, chkBusinessFinancingNeeded,
      chkVehicleConditionFairOrBelow, chkMinDaysSinceLastOrder, chkMinTotalSpent,
      chkCreditScoreImprovementNeeded, chkLegalStructureComplex,
      failMinCreditScore, failMaxCreditScore, failMinVehicleValue,
      failMinAnnualIncome, failJourneyStage, failFinancingNeeded,
      failVehiclePurchaseIntent, failBusinessFinancingNeeded,
      failVehicleConditionFairOrBelow, failMinDaysSinceLastOrder, failMinTotalSpent,
      failCreditScoreImprovementNeeded, failLegalStructureComplex,
      condTruthy, condNum, getCond, JsVal.truthy]
  · intro c order now
    rw [evaluateConditions_eq_allChecks]
    simp [allChecks, chkMinCreditScore, chkMaxCreditScore, chkMinVehicleValue,
      chkMinAnnualIncome, chkJourneyStage, chkFinancingNeeded,
      chkVehiclePurchaseIntent, chkBusinessFinancingNeeded,
      chkVehicleConditionFairOrBelow, chkMinDaysSinceLastOrder, chkMinTotalSpent,
      chkCreditScoreImprovementNeeded, chkLegalStructureComplex,
      failMinCreditScore, failMaxCreditScore, failMinVehicleValue,
      failMinAnnualIncome, failJourneyStage, failFinancingNeeded,
      failVehiclePurchaseIntent, failBusinessFinancingNeeded,
      failVehicleConditionFairOrBelow, failMinDaysSinceLastOrder, failMinTotalSpent,
      failCreditScoreImprovementNeeded, failLegalStructureComplex,
      condTruthy, condNum, getCond, JsVal.truthy]
  · intro conds c h
    constructor
    · simp [chkMinCreditScore, failMinCreditScore, h, jsLtOpt_none_left]
    · simp [chkMaxCreditScore, failMaxCreditScore, h, jsGtOpt_none_left]
  · intro conds c h
    simp [chkMinVehicleValue, failMinVehicleValue, h, jsLtOpt_none_left]
  · intro conds c h
    simp [chkMinAnnualIncome, failMinAnnualIncome, h, jsLtOpt_none_left]

/-- A client profile with every optional snapshot field absent. -/
def clientBlank : Client :=
  { id := 8
    credit_score := none
    vehicle_value := none
    annual_income := none
    journey_stage := none
    client_type := none
    business_name := none
    vehicles := []
    totalSpent := 0
    totalOrders := 0
    lastOrderDate := none }

/-- Witness for the C10 theorem at concrete inputs. -/
theorem falsy_condition_and_missing_field_pass_witness :
    evaluateConditions [("min_credit_score", .num 0)] clientNeutral
        entryOrderScenario 0 = true ∧
    (chkMinCreditScore [("min_credit_score", .num 700)] clientBlank = true ∧
      chkMaxCreditScore [("min_credit_score", .num 700)] clientBlank = true) :=
  ⟨(falsy_condition_and_missing_field_pass.2.2.2.1 clientNeutral
      entryOrderScenario 0),
   (falsy_condition_and_missing_field_pass.2.2.2.2.2.2.1
      [("min_credit_score", .num 700)] clientBlank rfl)⟩

/-- C9: a store error inside `checkExistingService` is caught and null
returned (part_000 lines 467-470), and `triggerCascade` treats that null
exactly like "no existing order": with the threshold met, conditions
true and a winning draw, the rule proceeds to create a pending
`CascadeTrigger` and schedule the triggered order — even though the
duplicate-suppression read failed. -/
theorem store_error_treated_as_no_existing_order :
    (∀ (s : Store) (clientId serviceId : ℕ),
        s.ordersLookupFails = true → checkExistingService s clientId serviceId = none) ∧
    (∀ (cfg : EngineCfg) (client : Client) (order : ServiceOrder) (now : ℚ)
        (depth : ℕ) (rule : Rule) (store : Store) (draw : ℚ) (rest : List ℚ),
        store.ordersLookupFails = true →
        cfg.conversionThreshold ≤ rule.conversionRate →
        evaluateConditions rule.conditions client order now = true →
        draw < rule.conversionRate →
        processRule cfg client order now depth rule store (draw :: rest) =
          ({ store with
              cascadeTriggers := store.cascadeTriggers ++
                [{ id := store.nextTriggerId, client_id := client.id
                   entry_order_id := order.id, cascade_id := rule.id
                   converted := false, triggered_order_id := none }]
              nextTriggerId := store.nextTriggerId + 1 },
           rest,
           some { rule := rule, client := client
                  trigger :=
                    { id := store.nextTriggerId, client_id := client.id
                      entry_order_id := order.id, cascade_id := rule.id
                      converted := false, triggered_order_id := none }
                  depth := depth })) := by
  constructor
  · intro s clientId serviceId h
    unfold checkExistingService
    rw [if_pos h]
  · intro cfg client order now depth rule store draw rest hfail hth hcond hdraw
    unfold processRule
    rw [if_neg (not_lt.mpr hth)]
    rw [if_neg (by
      unfold checkExistingService
      rw [if_pos hfail]
      simp)]
    rw [if_neg (by rw [hcond]; simp)]
    rw [if_neg (by simp [hdraw])]
    rfl

/-- The scenario store with the service-order read failing. -/
def storeScenarioFails : Store := { storeScenario with ordersLookupFails := true }

/-- Witness for the C9 theorem at concrete inputs. -/
theorem store_error_treated_as_no_existing_order_witness :
    checkExistingService storeScenarioFails 7 2 = none ∧
    (processRule cfgScenario clientNeutral entryOrderScenario 0 0 ruleScenario
        storeScenarioFails ((1/10) :: [])).2.2 =
      some { rule := ruleScenario, client := clientNeutral
             trigger :=
               { id := 1, client_id := 7, entry_order_id := 10, cascade_id := 300
                 converted := false, triggered_order_id := none }
             depth := 0 } := by
  constructor
  · exact store_error_treated_as_no_existing_order.1 storeScenarioFails 7 2 rfl
  · rw [store_error_treated_as_no_existing_order.2 cfgScenario clientNeutral
      entryOrderScenario 0 0 ruleScenario storeScenarioFails (1/10) [] rfl
      (by norm_num [cfgScenario, ruleScenario])
      (by with_unfolding_all decide)
      (by norm_num [ruleScenario])]
    rfl

/-- C1 (amended): when the duplicate-suppression read succeeds and the
customer already holds an order for the rule's triggered service,
`triggerCascade` skips the rule entirely — no trigger is created and no
order creation is scheduled from it. (The global at-most-one invariant
still fails, because creation is deferred without a re-check: see the
counterexample.) -/
theorem existing_order_skips_rule (cfg : EngineCfg) (client : Client)
    (order : ServiceOrder) (now : ℚ) (depth : ℕ) (rule : Rule) (store : Store)
    (rand : List ℚ)
    (hok : store.ordersLookupFails = false)
    (hex : (store.serviceOrders.find?
        (fun o => o.client_id == client.id && o.service_id == rule.triggeredServiceId)).isSome
        = true) :
    processRule cfg client order now depth rule store rand = (store, rand, none) := by
  unfold processRule
  by_cases h1 : rule.conversionRate < cfg.conversionThreshold
  · rw [if_pos h1]
  · rw [if_neg h1, if_pos (by unfold checkExistingService; rw [if_neg (by simp [hok])]; exact hex)]

/-- The scenario store where client 7 already holds an order for
service 2 (the rule's triggered service). -/
def storeAlreadyHasB : Store :=
  { storeScenario with
      serviceOrders := storeScenario.serviceOrders ++
        [{ id := 11, client_id := 7, service_id := 2, status := "completed"
           base_price := 1000, final_price := 1000, depthData := none }] }

/-- Witness for the amended C1 theorem at concrete inputs. -/
theorem existing_order_skips_rule_witness :
    processRule cfgScenario clientNeutral entryOrderScenario 0 0 ruleScenario
        storeAlreadyHasB [1/10] = (storeAlreadyHasB, [1/10], none) :=
  existing_order_skips_rule cfgScenario clientNeutral entryOrderScenario 0 0
    ruleScenario storeAlreadyHasB [1/10] rfl (by with_unfolding_all decide)

theorem processRule_below_threshold (cfg : EngineCfg) (client : Client)
    (order : ServiceOrder) (now : ℚ) (depth : ℕ) (rule : Rule) (store : Store)
    (rand : List ℚ) (h : rule.conversionRate < cfg.conversionThreshold) :
    processRule cfg client order now depth rule store rand = (store, rand, none) := by
  unfold processRule
  rw [if_pos h]

theorem processRule_trigger_ids (cfg : EngineCfg) (client : Client)
    (order : ServiceOrder) (now : ℚ) (depth : ℕ) (rule : Rule) (store : Store)
    (rand : List ℚ) :
    triggerIds (processRule cfg client order now depth rule store rand).1 =
        triggerIds store ∨
    triggerIds (processRule cfg client order now depth rule store rand).1 =
        triggerIds store ++ [rule.id] := by
  unfold processRule
  by_cases h1 : rule.conversionRate < cfg.conversionThreshold
  · rw [if_pos h1]; exact Or.inl rfl
  rw [if_neg h1]
  by_cases h2 : (checkExistingService store client.id rule.triggeredServiceId).isSome = true
  · rw [if_pos h2]; exact Or.inl rfl
  rw [if_neg h2]
  by_cases h3 : (!evaluateConditions rule.conditions client order now) = true
  · rw [if_pos h3]; exact Or.inl rfl
  rw [if_neg h3]
  by_cases h4 : (!decide (rand.headD 1 < rule.conversionRate)) = true
  · rw [if_pos h4]; exact Or.inl rfl
  rw [if_neg h4]
  right
  simp [triggerIds]

theorem map_preserving_cascadeId (l : List CascadeTrigger)
    (f : CascadeTrigger → CascadeTrigger)
    (hf : ∀ t, (f t).cascade_id = t.cascade_id) :
    (l.map f).map (·.cascade_id) = l.map (·.cascade_id) := by
  induction l with
  | nil => rfl
  | cons t ts ih => simp [hf, ih]

theorem createTriggeredService_trigger_ids (store : Store) (d : Deferred) :
    triggerIds (createTriggeredService store d) = triggerIds store := by
  unfold createTriggeredService
  cases findService store d.rule.triggeredServiceId with
  | none => rfl
  | some sv =>
      simp only [triggerIds]
      exact map_preserving_cascadeId _ _ (by
        intro t
        by_cases h : (t.id == d.trigger.id) = true <;> simp [h])

theorem runDeferred_trigger_ids (ds : List Deferred) :
    ∀ store : Store, triggerIds (runDeferred store ds) = triggerIds store := by
  induction ds with
  | nil => intro store; rfl
  | cons d rest ih =>
      intro store
      show triggerIds (runDeferred (createTriggeredService store d) rest) = _
      rw [ih, createTriggeredService_trigger_ids]

theorem evalRulesLoop_count (cfg : EngineCfg) (client : Client)
    (order : ServiceOrder) (now : ℚ) (depth : ℕ) (rid : ℕ) :
    ∀ (rules : List Rule),
      (∀ r ∈ rules, r.id = rid → r.conversionRate < cfg.conversionThreshold) →
      ∀ (store : Store) (rand : List ℚ) (ds : List Deferred),
        (triggerIds (evalRulesLoop cfg client order now depth rules store rand ds).1).count rid =
          (triggerIds store).count rid := by
  intro rules
  induction rules with
  | nil => intro _ store rand ds; rfl
  | cons r rs ih =>
      intro hrules store rand ds
      rcases hpr : processRule cfg client order now depth r store rand with ⟨s1, rand1, d1⟩
      have hstep :
          evalRulesLoop cfg client order now depth (r :: rs) store rand ds =
            evalRulesLoop cfg client order now depth rs s1 rand1 (ds ++ d1.toList) := by
        conv_lhs => unfold evalRulesLoop
        rw [hpr]
      rw [hstep, ih (fun q hq hid => hrules q (List.mem_cons_of_mem r hq) hid)]
      by_cases hid : r.id = rid
      · have hbelow := hrules r (List.mem_cons_self r rs) hid
        rw [processRule_below_threshold cfg client order now depth r store rand hbelow] at hpr
        cases hpr
        rfl
      · rcases processRule_trigger_ids cfg client order now depth r store rand with h | h <;>
          rw [hpr] at h
        · rw [h]
        · rw [h, List.count_append]
          simp [List.count_cons, List.count_nil, hid, Ne.symm hid]

theorem triggerCascade_count (cfg : EngineCfg) (store : Store) (oid cid : ℕ)
    (depth : ℕ) (rand : List ℚ) (now : ℚ) (rid : ℕ)
    (h : ∀ (sid : ℕ) (r : Rule), r ∈ rulesFor cfg sid → r.id = rid →
        r.conversionRate < cfg.conversionThreshold) :
    (triggerIds (triggerCascade cfg store oid cid depth rand now).1).count rid =
      (triggerIds store).count rid := by
  unfold triggerCascade
  by_cases h1 : cfg.maxCascadeDepth ≤ depth
  · rw [if_pos h1]
  rw [if_neg h1]
  cases ho : findOrder store oid with
  | none => rfl
  | some order =>
      dsimp only
      by_cases h2 : (!(order.status == "completed")) = true
      · rw [if_pos h2]
      rw [if_neg h2]
      by_cases h3 : (rulesFor cfg order.service_id).isEmpty = true
      · rw [if_pos h3]
      rw [if_neg h3]
      cases hc : findClient store cid with
      | none => rfl
      | some client =>
          exact evalRulesLoop_count cfg client order now depth rid
            (rulesFor cfg order.service_id)
            (fun r hr hidr => h order.service_id r hr hidr) store rand []

/-- C4: a rule whose conversion rate is below the activation threshold
is skipped before any record is written (part_000 lines 109-117):
`processRule` leaves the store and the random oracle untouched and
schedules nothing, for every customer, every condition set and every
draw; consequently a full cascade run (evaluation loop plus deferred
order creations) never changes the number of `CascadeTrigger` rows
referencing such a rule. -/
theorem below_threshold_rule_never_triggers :
    (∀ (cfg : EngineCfg) (client : Client) (order : ServiceOrder) (now : ℚ)
        (depth : ℕ) (rule : Rule) (store : Store) (rand : List ℚ),
        rule.conversionRate < cfg.conversionThreshold →
        processRule cfg client order now depth rule store rand = (store, rand, none)) ∧
    (∀ (cfg : EngineCfg) (store : Store) (oid cid depth : ℕ) (rand : List ℚ)
        (now : ℚ) (rid : ℕ),
        (∀ (sid : ℕ) (r : Rule), r ∈ rulesFor cfg sid → r.id = rid →
            r.conversionRate < cfg.conversionThreshold) →
        (triggerIds (cascadeRun cfg store oid cid depth rand now)).count rid =
          (triggerIds store).count rid) := by
  constructor
  · exact processRule_below_threshold
  · intro cfg store oid cid depth rand now rid h
    unfold cascadeRun
    rcases htc : triggerCascade cfg store oid cid depth rand now with ⟨s, ds⟩
    have hcount := triggerCascade_count cfg store oid cid depth rand now rid h
    rw [htc] at hcount
    show (triggerIds (runDeferred s ds)).count rid = _
    rw [runDeferred_trigger_ids ds s]
    exact hcount

/-- A rule with conversion rate 0.60, below the 0.75 threshold. -/
def ruleLowRate : Rule :=
  { id := 600, entryServiceId := 1, triggeredServiceId := 2
    conversionRate := 0.6, priority := 1, conditions := [] }

/-- An engine holding only the below-threshold rule. -/
def cfgLowRate : EngineCfg :=
  { conversionThreshold := 0.75, maxCascadeDepth := 3
    rules := [(1, [ruleLowRate])] }

/-- Witness for the C4 theorem at concrete inputs. -/
theorem below_threshold_rule_never_triggers_witness :
    processRule cfgLowRate clientNeutral entryOrderScenario 0 0 ruleLowRate
        storeScenario [1/10] = (storeScenario, [1/10], none) ∧
    (triggerIds (cascadeRun cfgLowRate storeScenario 10 7 0 [1/10] 0)).count 600 =
      (triggerIds storeScenario).count 600 := by
  constructor
  · exact below_threshold_rule_never_triggers.1 cfgLowRate clientNeutral
      entryOrderScenario 0 0 ruleLowRate storeScenario [1/10]
      (by norm_num [ruleLowRate, cfgLowRate])
  · refine below_threshold_rule_never_triggers.2 cfgLowRate storeScenario 10 7 0
      [1/10] 0 600 ?_
    intro sid r hr _
    have hcases : rulesFor cfgLowRate sid = [ruleLowRate] ∨ rulesFor cfgLowRate sid = [] := by
      unfold rulesFor cfgLowRate
      by_cases hs : ((1 : ℕ) == sid) = true
      · left; simp [List.find?, hs]
      · right; simp [List.find?, hs]
    rcases hcases with hcase | hcase <;> rw [hcase] at hr
    · have : r = ruleLowRate := by simpa using hr
      subst this
      norm_num [ruleLowRate, cfgLowRate]
    · simp at hr

theorem round2_close (q : ℚ) : q - 1/200 ≤ round2 q ∧ round2 q ≤ q + 1/200 := by
  have h1 : ((⌊q * 100 + 1/2⌋ : ℤ) : ℚ) ≤ q * 100 + 1/2 := Int.floor_le _
  have h2 : q * 100 + 1/2 < ((⌊q * 100 + 1/2⌋ : ℤ) : ℚ) + 1 := Int.lt_floor_add_one _
  unfold round2
  constructor <;> linarith

theorem clampedPrice_within_cap (cfg : OptCfg) (service : Service)
    (client : OptClient) (options : PriceOptions) (hb : 0 ≤ service.base_price) :
    service.base_price * (1 - priceAdjustmentCap) ≤ clampedPrice cfg service client options ∧
    clampedPrice cfg service client options ≤ service.base_price * (1 + priceAdjustmentCap) := by
  unfold clampedPrice
  constructor
  · apply le_min
    · exact le_max_right _ _
    · apply mul_le_mul_of_nonneg_left _ hb
      unfold priceAdjustmentCap
      norm_num
  · exact min_le_right _ _

/-- C2 (amended): for a nonnegative base price the clamped price
(optimizer.js line 273) always lies within the exact bounds
`[basePrice × (1 − cap), basePrice × (1 + cap)]`; the returned
`finalPrice`, being the clamped price rounded to the smallest currency
unit, is guaranteed only to lie within those bounds widened by half a
currency unit (1/200) on each side — and can genuinely leave the exact
interval, as the counterexample shows. -/
theorem optimal_price_bounds (cfg : OptCfg) (service : Service)
    (client : OptClient) (options : PriceOptions) (hb : 0 ≤ service.base_price) :
    (service.base_price * (1 - priceAdjustmentCap) ≤ clampedPrice cfg service client options ∧
      clampedPrice cfg service client options ≤ service.base_price * (1 + priceAdjustmentCap)) ∧
    (service.base_price * (1 - priceAdjustmentCap) - 1/200 ≤
        (computeOptimalPrice cfg service client options).finalPrice ∧
      (computeOptimalPrice cfg service client options).finalPrice ≤
        service.base_price * (1 + priceAdjustmentCap) + 1/200) := by
  have hc := clampedPrice_within_cap cfg service client options hb
  have hr := round2_close (clampedPrice cfg service client options)
  have hfp : (computeOptimalPrice cfg service client options).finalPrice =
      round2 (clampedPrice cfg service client options) := rfl
  refine ⟨hc, ?_, ?_⟩ <;> rw [hfp] <;> linarith [hc.1, hc.2, hr.1, hr.2]

/-- Witness for the amended C2 theorem at a concrete service. -/
theorem optimal_price_bounds_witness :
    (svcTinyPrice.base_price * (1 - priceAdjustmentCap) ≤
        clampedPrice cfgOptStatic svcTinyPrice optClientNeutral optsNone ∧
      clampedPrice cfgOptStatic svcTinyPrice optClientNeutral optsNone ≤
        svcTinyPrice.base_price * (1 + priceAdjustmentCap)) ∧
    (svcTinyPrice.base_price * (1 - priceAdjustmentCap) - 1/200 ≤
        (computeOptimalPrice cfgOptStatic svcTinyPrice optClientNeutral optsNone).finalPrice ∧
      (computeOptimalPrice cfgOptStatic svcTinyPrice optClientNeutral optsNone).finalPrice ≤
        svcTinyPrice.base_price * (1 + priceAdjustmentCap) + 1/200) :=
  optimal_price_bounds cfgOptStatic svcTinyPrice optClientNeutral optsNone
    (by norm_num [svcTinyPrice])

/-- C3 (amended): the order created by a fired cascade rule is priced by
the cascade engine's own `calculateDynamicPricing` (part_000 line 198),
a discount model — not by the optimizer's multiplicative algorithm; for
a customer with credit score 720 whose discount conditions are all
inactive (spend at most 50000, more than zero and at most five prior
orders), the created order's final price equals the triggered service's
base price unchanged. -/
theorem cascade_uses_discount_pricing :
    (∀ (store : Store) (d : Deferred) (service : Service),
        findService store d.rule.triggeredServiceId = some service →
        (createTriggeredService store d).serviceOrders =
          store.serviceOrders ++
            [{ id := store.nextOrderId, client_id := d.client.id
               service_id := service.id, status := "pending"
               base_price := service.base_price
               final_price := (calculateDynamicPricing service d.client).finalPrice
               depthData := some (d.depth + 1) }]) ∧
    (∀ (service : Service) (client : Client),
        0 ≤ service.base_price →
        client.totalSpent ≤ 50000 →
        jsGtQ client.credit_score 750 = false →
        client.totalOrders ≠ 0 →
        client.totalOrders ≤ 5 →
        (calculateDynamicPricing service client).finalPrice = service.base_price) := by
  constructor
  · intro store d service h
    unfold createTriggeredService
    rw [h]
  · intro service client hb hspend hcred horders h5
    unfold calculateDynamicPricing
    dsimp only
    have h0 : (client.totalOrders == 0) = false := by simpa using horders
    simp only [if_neg (not_lt.mpr hspend), if_neg (not_lt.mpr h5), hcred, h0,
      Bool.false_eq_true, ite_false]
    rw [sub_zero]
    apply max_eq_left
    nlinarith [hb]

/-- Witness for the amended C3 theorem: the scenario's service B and the
credit-720 client. -/
theorem cascade_uses_discount_pricing_witness :
    (calculateDynamicPricing svcB clientNeutral).finalPrice = svcB.base_price :=
  cascade_uses_discount_pricing.2 svcB clientNeutral
    (by norm_num [svcB])
    (by norm_num [clientNeutral])
    (by with_unfolding_all decide)
    (by decide)
    (by decide)

/-- C6 (amended): when the optimizer is initialized and both the service
and the client profile are found, `calculateOptimalPrice` returns a
price; the individual factor lookups default to the neutral factor 1.0
for a missing or zero credit score, a missing vehicle value, a category
absent from the seasonal tables, and a category absent from the market
map. But when the service or client lookup fails, the error is re-thrown
to the caller as an AppError (status 503) by `handleRevenueError` — as
the counterexample shows, the calculation does not always return a
price. -/
theorem pricing_ok_when_lookups_succeed :
    (∀ (cfg : OptCfg) (services : List Service) (clients : List (ℕ × OptClient))
        (serviceId clientId : ℕ) (options : PriceOptions) (service : Service)
        (client : OptClient),
        cfg.isInitialized = true →
        services.find? (fun sv => sv.id == serviceId) = some service →
        (clients.find? (fun p => p.1 == clientId)).map (·.2) = some client →
        calculateOptimalPrice cfg services clients serviceId clientId options =
          .ok (computeOptimalPrice cfg service client options)) ∧
    getCreditScoreFactor none = 1 ∧
    getCreditScoreFactor (some 0) = 1 ∧
    getVehicleValueFactor none = 1 ∧
    (∀ month : ℕ, getSeasonalFactor "logistics" month = 1) ∧
    getMarketFactor defaultMarketConditions "financial" = 1 := by
  refine ⟨?_, rfl, by norm_num [getCreditScoreFactor], rfl,
    fun month => by
      simp +decide [getSeasonalFactor, seasonalTable]
      norm_num,
    by with_unfolding_all decide⟩
  intro cfg services clients serviceId clientId options service client hinit hsvc hcli
  unfold calculateOptimalPrice
  rw [hinit]
  simp only [Bool.not_true, Bool.false_eq_true, ite_false]
  rw [hsvc, hcli]

/-- Witness for the amended C6 theorem at concrete inputs. -/
theorem pricing_ok_when_lookups_succeed_witness :
    calculateOptimalPrice cfgOptDynamic [svcB] [(7, optClientNeutral)] 2 7 optsNone =
      .ok (computeOptimalPrice cfgOptDynamic svcB optClientNeutral optsNone) :=
  pricing_ok_when_lookups_succeed.1 cfgOptDynamic [svcB] [(7, optClientNeutral)]
    2 7 optsNone svcB optClientNeutral rfl (by with_unfolding_all rfl)
    (by with_unfolding_all rfl)

/-- Witness for the C7 theorem: a single failing predicate
(`min_credit_score: 800` against credit 720) makes the whole evaluation
false. -/
theorem evaluateConditions_conjunction_witness :
    evaluateConditions [("min_credit_score", .num 800)] clientNeutral
        entryOrderScenario 0 = false :=
  evaluateConditions_conjunction.2.2 [("min_credit_score", .num 800)] clientNeutral
    entryOrderScenario 0 (by with_unfolding_all decide)
